import Mathlib

/-!
Shallow embedding of the product controller of the royolty-shop backend
(src: `backend/controllers/productController.js`, served through
`backend/server.js`).  The document store (MongoDB via Mongoose) is modelled
as a list of `Product` documents; `find`, `findById`, `count`, `save` become
list operations.  JavaScript numbers appearing in documents are modelled as
exact rationals; the `Number()` coercion of the `pageNumber` query parameter
is modelled on absent parameters, empty strings and decimal integer strings
(`jsNumber`).  HTTP responses become small outcome types together with
status/message functions mirroring `res.status(...)` and `throw new Error(...)`.
-/

namespace Shop

/-- A review embedded in a product document (`productModel.js`):
`user` (account reference, modelled as a numeric id), denormalized reviewer
`name`, numeric `rating`, free-text `comment`. -/
structure Review where
  user : ℕ
  name : String
  rating : ℚ
  comment : String
deriving Repr, DecidableEq

/-- A product document: identifier, owning account, the text fields, numeric
`price` and `countInStock`, the derived aggregates `rating` and `numReviews`,
and the embedded `reviews` array. -/
structure Product where
  id : ℕ
  user : ℕ
  name : String
  image : String
  brand : String
  category : String
  description : String
  price : ℚ
  countInStock : ℤ
  rating : ℚ
  numReviews : ℕ
  reviews : List Review
deriving Repr, DecidableEq

/-- The store's `findById` / the filter `{_id: id}`: first document whose id
matches. -/
def findById (store : List Product) (pid : ℕ) : Option Product :=
  store.find? (fun p => p.id == pid)

/-- Mongoose's `document.save()` on a fetched document: the persisted copy of
the document replaces the stored one with the same id. -/
def saveProduct (store : List Product) (p : Product) : List Product :=
  store.map (fun q => if q.id == p.id then p else q)

/-- Decimal digit value of a character, if it is a digit. -/
def digitVal (c : Char) : Option ℕ :=
  if 48 ≤ c.toNat ∧ c.toNat ≤ 57 then some (c.toNat - 48) else none

/-- Value of a non-empty all-digit character list, read left to right. -/
def digitsVal : List Char → Option ℕ
  | [] => none
  | [c] => digitVal c
  | c :: cs => match digitVal c, digitsVal cs with
    | some d, some n => some (d * 10 ^ cs.length + n)
    | _, _ => none

/-- `Number(req.query.pageNumber)` where the parameter is an optional string:
an absent parameter (`undefined`) coerces to NaN (modelled `none`), the empty
string coerces to `0`, a decimal integer string (optionally signed) to its
value, and any other string to NaN.  (Fractional or exotic numeric literals
are outside the model; page numbers are integer-valued.) -/
def jsNumber : Option String → Option ℤ
  | none => none
  | some s =>
    match s.data with
    | [] => some 0
    | '-' :: cs => (digitsVal cs).map (fun n => -(n : ℤ))
    | cs => (digitsVal cs).map (fun n => (n : ℤ))

/-- `x || d` on a JavaScript number `x` that may be NaN: NaN and `0` are
falsy, every other number is truthy. -/
def jsOr (x : Option ℤ) (d : ℤ) : ℤ :=
  match x with
  | none => d
  | some v => if v = 0 then d else v

/-- JavaScript regular-expression metacharacters: in the source the search
keyword is passed to `$regex` unescaped, so these characters keep their
regex meaning inside a keyword. -/
def regexMetachars : List Char :=
  ['.', '*', '+', '?', '^', '$', '(', ')', '[', ']', '\x7b', '\x7d', '|', '\\']

/-- One pattern atom against one subject character, case-insensitively:
`.` matches any character, any other pattern character matches itself up to
case (the `i` option of `$regex`). -/
def atomMatches (p c : Char) : Bool :=
  p = '.' || p.toLower = c.toLower

/-- The pattern matches at the very start of the subject (and may end before
the subject does). -/
def matchesHere : List Char → List Char → Bool
  | [], _ => true
  | _ :: _, [] => false
  | p :: ps, c :: cs => atomMatches p c && matchesHere ps cs

/-- Modelled from the spec: the document store's `$regex` matcher with
`$options: 'i'` is an external collaborator (MongoDB), not code of this
repository.  We model unanchored case-insensitive search for patterns built
from literal characters and the metacharacter `.` (match any character);
quantified or grouped patterns are outside the model. -/
def regexSearch (p : List Char) : List Char → Bool
  | [] => matchesHere p []
  | c :: cs => matchesHere p (c :: cs) || regexSearch p cs

/-- The `keyword` filter object of `getProducts`:
`req.query.keyword ? {name: {$regex: req.query.keyword, $options: 'i'}} : {}`.
An absent or empty keyword is falsy, so the filter matches everything;
otherwise the product's `name` is matched against the keyword as an
unanchored case-insensitive regex. -/
def matchesKeyword (kw : Option String) (p : Product) : Bool :=
  match kw with
  | none => true
  | some s => if s.isEmpty then true else regexSearch s.data p.name.data

/-- The JSON payload of `GET /api/products`:
`res.json({ products, page, pages })`. -/
structure ProductsPage where
  products : List Product
  page : ℤ
  pages : ℤ
deriving Repr

/-- `getProducts` (lines 7–44): page size 10; page number
`Number(req.query.pageNumber) || 1`; count and find over the keyword filter;
the find skips `pageSize * (page - 1)` matches and returns at most
`pageSize` of them (the store applies skip before limit); `pages` is
`Math.ceil(count / pageSize)`. -/
def getProducts (store : List Product) (keywordParam pageParam : Option String) :
    ProductsPage :=
  let pageSize : ℕ := 10
  let page : ℤ := jsOr (jsNumber pageParam) 1
  let matched := store.filter (fun p => matchesKeyword keywordParam p)
  let count : ℕ := matched.length
  let products := (matched.drop (pageSize * (page - 1)).toNat).take pageSize
  { products := products, page := page,
    pages := ⌈(count : ℚ) / (pageSize : ℚ)⌉ }

/-- The response of `GET /api/products/:id`: either the product document, or
status 404 with `Error('Product not found')`. -/
inductive ByIdOutcome where
  | ok (p : Product)
  | notFound
deriving Repr, DecidableEq

/-- HTTP status of a `getProductById` response. -/
def byIdStatus : ByIdOutcome → ℕ
  | .ok _ => 200
  | .notFound => 404

/-- `getProductById` (lines 57–66): fetch by id, reply with the document when
found, otherwise status 404 and `Error('Product not found')`. -/
def getProductById (store : List Product) (pid : ℕ) : ByIdOutcome :=
  match findById store pid with
  | some product => .ok product
  | none => .notFound

/-- The request body of `PUT /api/products/:id`:
`const { name, price, description, image, brand, category, countInStock } = req.body`.
`category` is destructured together with the rest. -/
structure UpdateBody where
  name : String
  price : ℚ
  description : String
  image : String
  brand : String
  category : String
  countInStock : ℤ
deriving Repr, DecidableEq

/-- The response of `PUT /api/products/:id`: the updated document, or status
404 with `Error('Product not found')`. -/
inductive UpdateOutcome where
  | ok (p : Product)
  | notFound
deriving Repr, DecidableEq

/-- HTTP status of an `updateProduct` response. -/
def updateStatus : UpdateOutcome → ℕ
  | .ok _ => 200
  | .notFound => 404

/-- `updateProduct` (lines 106–126): fetch by id; when found, assign
`name`, `price`, `description`, `image`, `brand` and `countInStock` from the
request body (the destructured `category` is never assigned), save, and reply
with the updated document; otherwise status 404. -/
def updateProduct (store : List Product) (pid : ℕ) (body : UpdateBody) :
    UpdateOutcome × List Product :=
  match findById store pid with
  | some product =>
    let updated := { product with
      name := body.name
      price := body.price
      description := body.description
      image := body.image
      brand := body.brand
      countInStock := body.countInStock }
    (UpdateOutcome.ok updated, saveProduct store updated)
  | none => (UpdateOutcome.notFound, store)

/-- The request of `POST /api/products/:id/reviews`: the product id from the
path, the acting user's id and display name from the authentication
middleware, and the `rating` and `comment` fields of the body.  `rating`
carries the value of `Number(rating)`: the numeric coercion the handler
applies, with no range check. -/
structure ReviewRequest where
  productId : ℕ
  userId : ℕ
  userName : String
  rating : ℚ
  comment : String
deriving Repr, DecidableEq

/-- The response of `POST /api/products/:id/reviews`: 201 `'Review added'`,
400 `Error('Product already reviewed')`, or 404 `Error('Product not found')`. -/
inductive ReviewOutcome where
  | created
  | alreadyReviewed
  | productNotFound
deriving Repr, DecidableEq

/-- HTTP status of a `createProductReview` response. -/
def reviewStatus : ReviewOutcome → ℕ
  | .created => 201
  | .alreadyReviewed => 400
  | .productNotFound => 404

/-- Message of a `createProductReview` response. -/
def reviewMessage : ReviewOutcome → String
  | .created => "Review added"
  | .alreadyReviewed => "Product already reviewed"
  | .productNotFound => "Product not found"

/-- The review object built on lines 146–151 of the handler. -/
def mkReview (req : ReviewRequest) : Review :=
  { name := req.userName
    rating := req.rating
    comment := req.comment
    user := req.userId }

/-- `createProductReview` (lines 131–167): fetch by id (404 when absent);
scan `product.reviews` for a review whose `user` equals the acting user's id
and reject with 400 when one exists; otherwise push the new review, set
`numReviews = reviews.length`, set
`rating = reviews.reduce((acc, item) => item.rating + acc, 0) / reviews.length`,
save the document and reply 201. -/
def createProductReview (store : List Product) (req : ReviewRequest) :
    ReviewOutcome × List Product :=
  match findById store req.productId with
  | some product =>
    match product.reviews.find? (fun r => r.user == req.userId) with
    | some _ => (ReviewOutcome.alreadyReviewed, store)
    | none =>
      let reviews := product.reviews ++ [mkReview req]
      let updated := { product with
        reviews := reviews
        numReviews := reviews.length
        rating := (reviews.map Review.rating).sum / (reviews.length : ℚ) }
      (ReviewOutcome.created, saveProduct store updated)
  | none => (ReviewOutcome.productNotFound, store)

/-- `getTopProducts` (lines 172–175):
`Product.find({}).sort({ rating: -1 }).limit(3)` — sort the whole catalog by
rating descending and return the first three. -/
def getTopProducts (store : List Product) : List Product :=
  (store.mergeSort (fun a b => decide (b.rating ≤ a.rating))).take 3

/-- `needle` occurs in `hay` as a case-insensitive substring: some
decomposition of the lower-cased `hay` puts the lower-cased `needle` between
two (possibly empty) pieces.  This is the spec's reading of the keyword
filter; the theorems below compare it against the regex filter the code
builds. -/
def ContainsCI (hay needle : String) : Prop :=
  ∃ l r : List Char,
    hay.data.map Char.toLower = l ++ needle.data.map Char.toLower ++ r

/-! Sample documents used to instantiate the theorems below on concrete
stores. -/

/-- A sample review by user 5. -/
def sampleReview : Review :=
  { user := 5, name := "Alice", rating := 4, comment := "Great grip" }

/-- A sample product with one review. -/
def sampleProduct : Product :=
  { id := 1, user := 9, name := "Red Shoes", image := "/images/shoes.jpg",
    brand := "Acme", category := "Footwear", description := "Running shoes",
    price := 49, countInStock := 3, rating := 4, numReviews := 1,
    reviews := [sampleReview] }

/-- A sample product with no reviews, named `"ab"`. -/
def prodAB : Product :=
  { id := 2, user := 9, name := "ab", image := "/images/ab.jpg",
    brand := "Acme", category := "Misc", description := "Plain",
    price := 5, countInStock := 1, rating := 0, numReviews := 0,
    reviews := [] }

/-- A sample update body whose `category` differs from `sampleProduct`'s. -/
def sampleBody : UpdateBody :=
  { name := "Blue Shoes", price := 59, description := "Trail shoes",
    image := "/images/blue.jpg", brand := "Apex", category := "Gadgets",
    countInStock := 7 }

end Shop

namespace Shop

/-- C4: `getProductById` returns the matching product document when one
exists, and fails with the 404 not-found response exactly when no document
matches the id. -/
theorem getProductById_found_or_404 (store : List Product) (pid : ℕ) :
    ((∃ p ∈ store, p.id = pid) →
      ∃ p ∈ store, p.id = pid ∧ getProductById store pid = ByIdOutcome.ok p) ∧
    ((getProductById store pid = ByIdOutcome.notFound ∧
        byIdStatus (getProductById store pid) = 404) ↔
      ¬∃ p ∈ store, p.id = pid) := by
  constructor
  · rintro ⟨p, hp, hid⟩
    cases hfind : store.find? (fun q => q.id == pid) with
    | none =>
      exact absurd (by simp [hid]) (List.find?_eq_none.mp hfind p hp)
    | some q =>
      refine ⟨q, List.mem_of_find?_eq_some hfind, ?_, ?_⟩
      · simpa using List.find?_some hfind
      · simp [getProductById, findById, hfind]
  · constructor
    · rintro ⟨hnf, -⟩ ⟨p, hp, hid⟩
      cases hfind : store.find? (fun q => q.id == pid) with
      | none => exact (List.find?_eq_none.mp hfind p hp) (by simp [hid])
      | some q => simp [getProductById, findById, hfind] at hnf
    · intro hno
      have hfind : store.find? (fun q => q.id == pid) = none :=
        List.find?_eq_none.mpr (fun p hp => by
          simp only [beq_iff_eq]
          intro h
          exact hno ⟨p, hp, h⟩)
      simp [getProductById, findById, byIdStatus, hfind]

/-- Witness for C4 at a concrete store: the product with id 1 is found, and
on the same store id 42 yields the 404 not-found response. -/
theorem getProductById_found_or_404_witness :
    (∃ p ∈ [sampleProduct], p.id = 1 ∧
      getProductById [sampleProduct] 1 = ByIdOutcome.ok p) ∧
    (getProductById [sampleProduct] 42 = ByIdOutcome.notFound ∧
      byIdStatus (getProductById [sampleProduct] 42) = 404) :=
  ⟨(getProductById_found_or_404 [sampleProduct] 1).1
      ⟨sampleProduct, by simp, rfl⟩,
    (getProductById_found_or_404 [sampleProduct] 42).2.mpr
      (by rintro ⟨p, hp, hid⟩; simp [sampleProduct] at hp; simp [hp] at hid)⟩

/-- C6: on an existing product, `updateProduct` overwrites `name`, `price`,
`description`, `image`, `brand` and `countInStock` unconditionally with the
caller-supplied body values, while the stored `category` keeps its previous
value even though the body carries a `category` field. -/
theorem updateProduct_overwrites (store : List Product) (pid : ℕ)
    (body : UpdateBody) (p : Product)
    (hfind : findById store pid = some p) :
    ∃ p', updateProduct store pid body = (UpdateOutcome.ok p', saveProduct store p') ∧
      p'.name = body.name ∧ p'.price = body.price ∧
      p'.description = body.description ∧ p'.image = body.image ∧
      p'.brand = body.brand ∧ p'.countInStock = body.countInStock ∧
      p'.category = p.category := by
  refine ⟨{ p with
      name := body.name, price := body.price, description := body.description,
      image := body.image, brand := body.brand, countInStock := body.countInStock },
    ?_, rfl, rfl, rfl, rfl, rfl, rfl, rfl⟩
  simp [updateProduct, hfind]

/-- Witness for C6: updating the sample product stores the body's six fields
but keeps category `"Footwear"`, not the body's `"Gadgets"`. -/
theorem updateProduct_overwrites_witness :
    findById [sampleProduct] 1 = some sampleProduct ∧
    sampleBody.category ≠ sampleProduct.category ∧
    ∃ p', updateProduct [sampleProduct] 1 sampleBody =
        (UpdateOutcome.ok p', saveProduct [sampleProduct] p') ∧
      p'.name = sampleBody.name ∧ p'.price = sampleBody.price ∧
      p'.description = sampleBody.description ∧ p'.image = sampleBody.image ∧
      p'.brand = sampleBody.brand ∧ p'.countInStock = sampleBody.countInStock ∧
      p'.category = sampleProduct.category :=
  ⟨rfl, by decide,
    updateProduct_overwrites [sampleProduct] 1 sampleBody sampleProduct rfl⟩

/-- C10: on an existing product, `updateProduct` leaves every field it does
not assign unchanged: `id`, `user`, `reviews`, `numReviews` and `rating`
after the update are exactly those before it. -/
theorem updateProduct_frame (store : List Product) (pid : ℕ)
    (body : UpdateBody) (p : Product)
    (hfind : findById store pid = some p) :
    ∃ p', updateProduct store pid body = (UpdateOutcome.ok p', saveProduct store p') ∧
      p'.id = p.id ∧ p'.user = p.user ∧ p'.reviews = p.reviews ∧
      p'.numReviews = p.numReviews ∧ p'.rating = p.rating := by
  refine ⟨{ p with
      name := body.name, price := body.price, description := body.description,
      image := body.image, brand := body.brand, countInStock := body.countInStock },
    ?_, rfl, rfl, rfl, rfl, rfl⟩
  simp [updateProduct, hfind]

/-- Witness for C10 at the sample store. -/
theorem updateProduct_frame_witness :
    findById [sampleProduct] 1 = some sampleProduct ∧
    ∃ p', updateProduct [sampleProduct] 1 sampleBody =
        (UpdateOutcome.ok p', saveProduct [sampleProduct] p') ∧
      p'.id = sampleProduct.id ∧ p'.user = sampleProduct.user ∧
      p'.reviews = sampleProduct.reviews ∧
      p'.numReviews = sampleProduct.numReviews ∧
      p'.rating = sampleProduct.rating :=
  ⟨rfl, updateProduct_frame [sampleProduct] 1 sampleBody sampleProduct rfl⟩

/-- C3: when the acting user already has a review on the product,
`createProductReview` answers with status 400 and the
`'Product already reviewed'` error, and the store — in particular the
product's reviews, `numReviews` and `rating` — is left exactly as it was. -/
theorem createProductReview_duplicate_rejected (store : List Product)
    (req : ReviewRequest) (p : Product)
    (hfind : findById store req.productId = some p)
    (hdup : ∃ rv ∈ p.reviews, rv.user = req.userId) :
    createProductReview store req = (ReviewOutcome.alreadyReviewed, store) ∧
    reviewStatus ReviewOutcome.alreadyReviewed = 400 ∧
    reviewMessage ReviewOutcome.alreadyReviewed = "Product already reviewed" := by
  obtain ⟨rv, hrv, hu⟩ := hdup
  have hsome : (p.reviews.find? (fun r => r.user == req.userId)).isSome := by
    rw [List.find?_isSome]
    exact ⟨rv, hrv, by simp [hu]⟩
  obtain ⟨r0, hr0⟩ := Option.isSome_iff_exists.mp hsome
  exact ⟨by simp [createProductReview, hfind, hr0], rfl, rfl⟩

/-- Witness for C3: user 5 already reviewed the sample product; a second
review by user 5 is rejected and the store is untouched. -/
theorem createProductReview_duplicate_rejected_witness :
    findById [sampleProduct] 1 = some sampleProduct ∧
    (∃ rv ∈ sampleProduct.reviews, rv.user = 5) ∧
    (createProductReview [sampleProduct]
        { productId := 1, userId := 5, userName := "Alice", rating := 5,
          comment := "again" } =
      (ReviewOutcome.alreadyReviewed, [sampleProduct]) ∧
    reviewStatus ReviewOutcome.alreadyReviewed = 400 ∧
    reviewMessage ReviewOutcome.alreadyReviewed = "Product already reviewed") :=
  ⟨rfl, ⟨sampleReview, by simp [sampleProduct], rfl⟩,
    createProductReview_duplicate_rejected [sampleProduct]
      { productId := 1, userId := 5, userName := "Alice", rating := 5,
        comment := "again" }
      sampleProduct rfl ⟨sampleReview, by simp [sampleProduct], rfl⟩⟩

/-- C2: after a successful `createProductReview`, the saved product has
`numReviews` equal to the length of its reviews list and `rating` equal to
the sum of all reviews' ratings divided by their number — a full
recomputation, holding whatever the product's previous `rating` and
`numReviews` were. -/
theorem createProductReview_recomputes_mean (store : List Product)
    (req : ReviewRequest) (p : Product)
    (hfind : findById store req.productId = some p)
    (hnew : ∀ rv ∈ p.reviews, rv.user ≠ req.userId) :
    (createProductReview store req).1 = ReviewOutcome.created ∧
    ∃ p', (createProductReview store req).2 = saveProduct store p' ∧
      p'.numReviews = p'.reviews.length ∧
      0 < p'.reviews.length ∧
      p'.rating = (p'.reviews.map Review.rating).sum / (p'.reviews.length : ℚ) := by
  have hnone : p.reviews.find? (fun r => r.user == req.userId) = none :=
    List.find?_eq_none.mpr (fun rv hrv => by simp [hnew rv hrv])
  refine ⟨by simp [createProductReview, hfind, hnone],
    { p with
        reviews := p.reviews ++ [mkReview req]
        numReviews := (p.reviews ++ [mkReview req]).length
        rating := ((p.reviews ++ [mkReview req]).map Review.rating).sum /
          (((p.reviews ++ [mkReview req]).length : ℕ) : ℚ) },
    by simp [createProductReview, hfind, hnone], rfl, by simp, rfl⟩

/-- Witness for C2: adding a rating-1 review by user 7 to the sample product
(previous mean 4 over one review) succeeds and restores the invariant on the
saved document. -/
theorem createProductReview_recomputes_mean_witness :
    findById [sampleProduct] 1 = some sampleProduct ∧
    (∀ rv ∈ sampleProduct.reviews, rv.user ≠ 7) ∧
    ((createProductReview [sampleProduct]
        { productId := 1, userId := 7, userName := "Bob", rating := 1,
          comment := "meh" }).1 = ReviewOutcome.created ∧
    ∃ p', (createProductReview [sampleProduct]
        { productId := 1, userId := 7, userName := "Bob", rating := 1,
          comment := "meh" }).2 = saveProduct [sampleProduct] p' ∧
      p'.numReviews = p'.reviews.length ∧
      0 < p'.reviews.length ∧
      p'.rating = (p'.reviews.map Review.rating).sum / (p'.reviews.length : ℚ)) :=
  ⟨rfl, by simp [sampleProduct, sampleReview],
    createProductReview_recomputes_mean [sampleProduct]
      { productId := 1, userId := 7, userName := "Bob", rating := 1,
        comment := "meh" }
      sampleProduct rfl (by simp [sampleProduct, sampleReview])⟩

/-- C9: `createProductReview` performs no range validation on the rating:
for every rating value, including ones outside `[1, 5]`, the call succeeds
whenever the product exists and the user has not reviewed it yet, and the
coerced rating is stored in the appended review and included in the
recomputed mean. -/
theorem createProductReview_no_range_check (store : List Product)
    (req : ReviewRequest) (p : Product)
    (hfind : findById store req.productId = some p)
    (hnew : ∀ rv ∈ p.reviews, rv.user ≠ req.userId) :
    (createProductReview store req).1 = ReviewOutcome.created ∧
    reviewStatus (createProductReview store req).1 = 201 ∧
    ∃ p', (createProductReview store req).2 = saveProduct store p' ∧
      p'.reviews = p.reviews ++ [mkReview req] ∧
      (mkReview req).rating = req.rating ∧
      p'.rating = ((p.reviews.map Review.rating).sum + req.rating) /
        ((p.reviews.length : ℚ) + 1) := by
  have hnone : p.reviews.find? (fun r => r.user == req.userId) = none :=
    List.find?_eq_none.mpr (fun rv hrv => by simp [hnew rv hrv])
  refine ⟨by simp [createProductReview, hfind, hnone],
    by simp [createProductReview, hfind, hnone, reviewStatus],
    { p with
        reviews := p.reviews ++ [mkReview req]
        numReviews := (p.reviews ++ [mkReview req]).length
        rating := ((p.reviews ++ [mkReview req]).map Review.rating).sum /
          (((p.reviews ++ [mkReview req]).length : ℕ) : ℚ) },
    by simp [createProductReview, hfind, hnone], rfl, rfl, ?_⟩
  simp [mkReview]

/-- Witness for C9: a rating of 42, far outside `[1, 5]`, is accepted and
stored for the review-less product `prodAB`. -/
theorem createProductReview_no_range_check_witness :
    findById [prodAB] 2 = some prodAB ∧
    (∀ rv ∈ prodAB.reviews, rv.user ≠ 7) ∧
    ¬((1 : ℚ) ≤ 42 ∧ (42 : ℚ) ≤ 5) ∧
    ((createProductReview [prodAB]
        { productId := 2, userId := 7, userName := "Bob", rating := 42,
          comment := "wild" }).1 = ReviewOutcome.created ∧
    reviewStatus (createProductReview [prodAB]
        { productId := 2, userId := 7, userName := "Bob", rating := 42,
          comment := "wild" }).1 = 201 ∧
    ∃ p', (createProductReview [prodAB]
        { productId := 2, userId := 7, userName := "Bob", rating := 42,
          comment := "wild" }).2 = saveProduct [prodAB] p' ∧
      p'.reviews = prodAB.reviews ++ [mkReview
        { productId := 2, userId := 7, userName := "Bob", rating := 42,
          comment := "wild" }] ∧
      (mkReview
        { productId := 2, userId := 7, userName := "Bob", rating := 42,
          comment := "wild" }).rating = 42 ∧
      p'.rating = ((prodAB.reviews.map Review.rating).sum + 42) /
        ((prodAB.reviews.length : ℚ) + 1)) :=
  ⟨rfl, by simp [prodAB], by norm_num,
    createProductReview_no_range_check [prodAB]
      { productId := 2, userId := 7, userName := "Bob", rating := 42,
        comment := "wild" }
      prodAB rfl (by simp [prodAB])⟩

/-- C1: for every page number at least 1, `getProducts` returns exactly the
matches left after skipping `(page - 1) * 10` of them, at most 10 of them,
reports `pages = ceil(totalMatches / 10)`, and on an empty match set returns
the empty sequence together with `pages = 0` (an ordinary response, not an
error). -/
theorem getProducts_pagination (store : List Product) (kw pp : Option String)
    (_hpage : 1 ≤ (getProducts store kw pp).page) :
    (getProducts store kw pp).products =
      ((store.filter (fun p => matchesKeyword kw p)).drop
        (10 * ((getProducts store kw pp).page - 1)).toNat).take 10 ∧
    (getProducts store kw pp).products.length ≤ 10 ∧
    (getProducts store kw pp).pages =
      ⌈(((store.filter (fun p => matchesKeyword kw p)).length : ℚ) / 10)⌉ ∧
    (store.filter (fun p => matchesKeyword kw p) = [] →
      (getProducts store kw pp).products = [] ∧
      (getProducts store kw pp).pages = 0) := by
  refine ⟨rfl, ?_, ?_, ?_⟩
  · exact le_trans (List.length_take_le 10 _) (le_refl 10)
  · show (⌈(((store.filter (fun p => matchesKeyword kw p)).length : ℚ) /
        ((10 : ℕ) : ℚ))⌉ : ℤ) = _
    norm_num
  · intro h
    refine ⟨?_, ?_⟩
    · show ((store.filter (fun p => matchesKeyword kw p)).drop _).take 10 = []
      simp [h]
    · show (⌈(((store.filter (fun p => matchesKeyword kw p)).length : ℚ) /
          ((10 : ℕ) : ℚ))⌉ : ℤ) = 0
      simp [h]

/-- Witness for C1 on a two-product store at page 1. -/
theorem getProducts_pagination_witness :
    1 ≤ (getProducts [sampleProduct, prodAB] none (some "1")).page ∧
    ((getProducts [sampleProduct, prodAB] none (some "1")).products =
      (([sampleProduct, prodAB].filter (fun p => matchesKeyword none p)).drop
        (10 * ((getProducts [sampleProduct, prodAB] none (some "1")).page - 1)).toNat).take 10 ∧
    (getProducts [sampleProduct, prodAB] none (some "1")).products.length ≤ 10 ∧
    (getProducts [sampleProduct, prodAB] none (some "1")).pages =
      ⌈((([sampleProduct, prodAB].filter (fun p => matchesKeyword none p)).length : ℚ) / 10)⌉ ∧
    ([sampleProduct, prodAB].filter (fun p => matchesKeyword none p) = [] →
      (getProducts [sampleProduct, prodAB] none (some "1")).products = [] ∧
      (getProducts [sampleProduct, prodAB] none (some "1")).pages = 0)) :=
  ⟨by decide, getProducts_pagination [sampleProduct, prodAB] none (some "1") (by decide)⟩

/-- C8 counterexample: `?pageNumber=0` coerces to the number 0, yet the page
number `getProducts` uses is 1, not 0 — `Number(x) || 1` also replaces a
zero page, not only absent or non-numeric parameters. -/
theorem getProducts_page_zero_cex :
    jsNumber (some "0") = some 0 ∧
    (getProducts [] none (some "0")).page = 1 ∧
    (1 : ℤ) ≠ 0 :=
  ⟨rfl, rfl, by decide⟩

/-- C8 (amended): the page number `getProducts` uses is the query parameter
coerced to a number, defaulting to 1 when the parameter is absent,
non-numeric, or coerces to 0 (JavaScript falsy). -/
theorem getProducts_page_default (store : List Product) (kw pp : Option String) :
    ((jsNumber pp = none ∨ jsNumber pp = some 0) →
      (getProducts store kw pp).page = 1) ∧
    (∀ v : ℤ, jsNumber pp = some v → v ≠ 0 →
      (getProducts store kw pp).page = v) := by
  constructor
  · rintro (h | h) <;> simp [getProducts, jsOr, h]
  · intro v hv hv0
    simp [getProducts, jsOr, hv, hv0]

/-- Witness for C8 (amended): `?pageNumber=7` yields page 7, an absent
parameter yields page 1. -/
theorem getProducts_page_default_witness :
    (getProducts [] none (some "7")).page = 7 ∧
    (getProducts [] none none).page = 1 :=
  ⟨(getProducts_page_default [] none (some "7")).2 7 rfl (by decide),
    (getProducts_page_default [] none none).1 (Or.inl rfl)⟩

/-- C7: `getTopProducts` returns exactly 3 products — all of them when the
catalog has fewer than 3 — sorted by rating in descending order, and they
are highest-rated: the catalog splits into the returned products and a rest
every member of which rates no higher than any returned product. -/
theorem getTopProducts_top3 (store : List Product) :
    (getTopProducts store).length = min 3 store.length ∧
    (getTopProducts store).Pairwise (fun a b => b.rating ≤ a.rating) ∧
    ∃ rest : List Product, (getTopProducts store ++ rest).Perm store ∧
      ∀ p ∈ getTopProducts store, ∀ q ∈ rest, q.rating ≤ p.rating := by
  have hperm : (store.mergeSort (fun a b => decide (b.rating ≤ a.rating))).Perm store :=
    List.mergeSort_perm store _
  have hsorted : (store.mergeSort (fun a b => decide (b.rating ≤ a.rating))).Pairwise
      (fun a b => decide (b.rating ≤ a.rating) = true) :=
    List.sorted_mergeSort
      (by intro a b c h1 h2; simp at *; exact le_trans h2 h1)
      (by intro a b; simpa using le_total b.rating a.rating)
      store
  have hsorted' : (store.mergeSort (fun a b => decide (b.rating ≤ a.rating))).Pairwise
      (fun a b => b.rating ≤ a.rating) :=
    hsorted.imp (fun h => of_decide_eq_true h)
  refine ⟨?_, ?_, ?_⟩
  · rw [getTopProducts, List.length_take, hperm.length_eq]
  · exact hsorted'.sublist (List.take_sublist 3 _)
  · refine ⟨(store.mergeSort (fun a b => decide (b.rating ≤ a.rating))).drop 3, ?_, ?_⟩
    · rw [getTopProducts, List.take_append_drop]
      exact hperm
    · have h := hsorted'
      rw [← List.take_append_drop 3
        (store.mergeSort (fun a b => decide (b.rating ≤ a.rating)))] at h
      exact fun p hp q hq => (List.pairwise_append.mp h).2.2 p hp q hq

/-- For a pattern free of the wildcard `.`, matching at the front of the
subject is exactly: the lower-cased pattern is an initial segment of the
lower-cased subject. -/
theorem matchesHere_iff : ∀ p : List Char, '.' ∉ p → ∀ s : List Char,
    (matchesHere p s = true ↔
      ∃ r, s.map Char.toLower = p.map Char.toLower ++ r) := by
  intro p
  induction p with
  | nil => intro _ s; simp [matchesHere]
  | cons a ps ih =>
    intro hp s
    have ha : a ≠ '.' := by intro h; exact hp (by simp [h])
    have hps : '.' ∉ ps := by intro h; exact hp (by simp [h])
    cases s with
    | nil => simp [matchesHere]
    | cons c cs =>
      simp only [matchesHere, Bool.and_eq_true, List.map_cons,
        List.cons_append, List.cons.injEq]
      rw [ih hps cs]
      constructor
      · rintro ⟨hac, r, hr⟩
        have : a.toLower = c.toLower := by
          rcases (by simpa [atomMatches] using hac : a = '.' ∨ a.toLower = c.toLower) with h | h
          · exact absurd h ha
          · exact h
        exact ⟨r, ⟨this.symm, hr⟩⟩
      · rintro ⟨r, hc, hr⟩
        exact ⟨by simp [atomMatches, hc], r, hr⟩

/-- For a pattern free of the wildcard `.`, the unanchored search is exactly
case-insensitive substring occurrence. -/
theorem regexSearch_iff (p : List Char) (hp : '.' ∉ p) : ∀ s : List Char,
    (regexSearch p s = true ↔
      ∃ l r, s.map Char.toLower = l ++ p.map Char.toLower ++ r) := by
  intro s
  induction s with
  | nil =>
    rw [regexSearch, matchesHere_iff p hp]
    constructor
    · rintro ⟨r, hr⟩
      exact ⟨[], r, by simpa using hr⟩
    · rintro ⟨l, r, hr⟩
      refine ⟨r, ?_⟩
      rcases List.append_eq_nil.mp (List.append_eq_nil.mp hr.symm).1 with ⟨h1, h2⟩
      simp [h2, (List.append_eq_nil.mp hr.symm).2, h1]
  | cons c cs ih =>
    rw [regexSearch]
    simp only [Bool.or_eq_true, matchesHere_iff p hp, ih]
    constructor
    · rintro (⟨r, hr⟩ | ⟨l, r, hr⟩)
      · exact ⟨[], r, by simpa using hr⟩
      · exact ⟨c.toLower :: l, r, by simp [hr]⟩
    · rintro ⟨l, r, hr⟩
      cases l with
      | nil => exact Or.inl ⟨r, by simpa using hr⟩
      | cons x l' =>
        right
        simp only [List.map_cons, List.cons_append, List.cons.injEq] at hr
        exact ⟨l', r, hr.2⟩

/-- C5 counterexample: with the keyword `"."` — a non-empty keyword — the
product named `"ab"` is returned although `"ab"` does not contain `"."` as a
case-insensitive substring: the unescaped keyword acts as a regex wildcard,
not as a literal character. -/
theorem getProducts_keyword_cex :
    ("." ≠ "") ∧
    (getProducts [prodAB] (some ".") none).products = [prodAB] ∧
    ¬ ContainsCI prodAB.name "." := by
  refine ⟨by decide, rfl, ?_⟩
  rintro ⟨l, r, h⟩
  have hmem : '.' ∈ prodAB.name.data.map Char.toLower := by
    rw [h]
    exact List.mem_append.mpr (Or.inl (List.mem_append.mpr (Or.inr (by decide))))
  exact absurd hmem (by decide)

/-- C5 (amended): for every non-empty keyword containing no regex
metacharacter, `getProducts` returns only products whose name contains the
keyword as a case-insensitive substring; the keyword reaches the regex
engine unescaped, so a metacharacter keyword matches as a regex rather than
as a literal substring (see the counterexample); with an absent or empty
keyword no name filter is applied and every product matches. -/
theorem getProducts_keyword_filter (store : List Product) (kw : String)
    (pp : Option String) (hne : kw ≠ "")
    (hplain : ∀ c ∈ kw.data, c ∉ regexMetachars) :
    (∀ p ∈ (getProducts store (some kw) pp).products, ContainsCI p.name kw) ∧
    (∀ p : Product, matchesKeyword none p = true ∧
      matchesKeyword (some "") p = true) := by
  constructor
  · intro p hp
    have hdot : '.' ∉ kw.data := by
      intro h
      exact hplain '.' h (by decide)
    have hmem : p ∈ store.filter (fun q => matchesKeyword (some kw) q) :=
      List.drop_subset _ _ (List.take_subset _ _ hp)
    have hmk : matchesKeyword (some kw) p = true := (List.mem_filter.mp hmem).2
    have hemp : kw.isEmpty = false := by
      cases hkw : kw.isEmpty
      · rfl
      · exact absurd ((String.isEmpty_iff kw).mp hkw) hne
    rw [matchesKeyword, hemp] at hmk
    simp only [Bool.false_eq_true, if_false] at hmk
    obtain ⟨l, r, hr⟩ := (regexSearch_iff kw.data hdot p.name.data).mp hmk
    exact ⟨l, r, hr⟩
  · intro p
    exact ⟨rfl, rfl⟩

/-- Witness for C5 (amended): keyword `"sHoE"` is non-empty and
metacharacter-free, and every product returned for it from the sample store
contains `"sHoE"` case-insensitively in its name. -/
theorem getProducts_keyword_filter_witness :
    ("sHoE" ≠ "") ∧
    (∀ c ∈ "sHoE".data, c ∉ regexMetachars) ∧
    ((∀ p ∈ (getProducts [sampleProduct, prodAB] (some "sHoE") none).products,
        ContainsCI p.name "sHoE") ∧
      (∀ p : Product, matchesKeyword none p = true ∧
        matchesKeyword (some "") p = true)) :=
  ⟨by decide, by decide,
    getProducts_keyword_filter [sampleProduct, prodAB] "sHoE" none
      (by decide) (by decide)⟩

end Shop

